import Mathlib

/-! Scene list panel (`src/src/scene_list.cpp`).

A shallow embedding of the `SceneList` widget: the fields of the class, the
parts of the Qt widgets it owns that its slots read or write, and the
documents it is attached to.

Conventions of the embedding.

* A C++ `int` is a `CInt`: an integer between `INT_MIN` and `INT_MAX`.
  Addition and subtraction wrap around modulo `2^32`; whatever an overflowing
  operation does in C++, its result is an `int` and so lies in that range.
* A `Document*` is an `Option Nat`: `none` is the null pointer, `some d` the
  document stored at address `d` of `State.documents`. A slot that
  dereferences a null pointer yields `none`.
* Visibility follows Qt: `hide()` sets and `show()` clears the `isHidden()`
  flag of a child widget, and `isVisible()` of a child is true when the child
  is not hidden and the panel itself is visible. The panel is not visible
  while it is constructed; the application shows and hides it, no function of
  this file does.
* `setMinimumWidth` and `setMaximumWidth` bound their argument to the range
  from 0 to `QWIDGETSIZE_MAX`, as Qt does.
* Calls that only affect widget state no slot of this file reads back (focus,
  mask, scrolling, tool tips, event acceptance) are not tracked.
* The geometry Qt's layout maintains (`width()`, the position of the resizer)
  and the size hints are read from the state; no function of this file
  writes them.
-/

namespace FocusWriter

/-! ## C++ `int` -/

/-- Largest value of a C++ `int`. -/
def INT_MAX : Int := 2147483647

/-- Smallest value of a C++ `int`. -/
def INT_MIN : Int := -2147483648

/-- Two's complement reduction of an integer to the range of `int`. -/
def wrap (i : Int) : Int := (i + 2147483648) % 4294967296 - 2147483648

/-- A C++ `int`. -/
structure CInt where
  val : Int
  inRange : INT_MIN ≤ val ∧ val ≤ INT_MAX
  deriving DecidableEq

namespace CInt

/-- Conversion of an integer to `int`. -/
def ofInt (i : Int) : CInt :=
  ⟨wrap i, by unfold wrap INT_MIN INT_MAX; omega⟩

/-- The sum `a + b` of two `int`s. -/
def add (a b : CInt) : CInt := ofInt (a.val + b.val)

/-- The difference `a - b` of two `int`s. -/
def sub (a b : CInt) : CInt := ofInt (a.val - b.val)

end CInt

/-- Qt: `qMin(a, b)` is `(a < b) ? a : b`. -/
def qMin (a b : CInt) : CInt := if a.val < b.val then a else b

/-- Qt: `qMax(a, b)` is `(a < b) ? b : a`. -/
def qMax (a b : CInt) : CInt := if a.val < b.val then b else a

/-- Qt: `qBound(min, val, max)` is `qMax(min, qMin(max, val))`. -/
def qBound (min val max : CInt) : CInt := qMax min (qMin max val)

/-! ## Qt value types -/

/-- A `QPoint`. -/
structure QPoint where
  x : CInt
  y : CInt
  deriving DecidableEq

/-- A `QModelIndex`: whether it is valid, its row, and the `int` stored as its
`Qt::UserRole` data (`index.data(Qt::UserRole).toInt()`). -/
structure QModelIndex where
  isValid : Bool
  row : CInt
  userRole : CInt
  deriving DecidableEq

/-- The `Qt::MouseButton` a mouse event reports. -/
inductive MouseButton where
  | NoButton
  | LeftButton
  | RightButton
  | MidButton
  | XButton1
  | XButton2
  deriving DecidableEq

/-- A `QMouseEvent`: the button and the position in the panel. -/
structure QMouseEvent where
  button : MouseButton
  pos : QPoint

/-- The selection modes of `QAbstractItemView` the panel uses. -/
inductive SelectionMode where
  | SingleSelection
  | ExtendedSelection
  deriving DecidableEq

/-- The invalid index `QModelIndex()`: row `-1`, and no data (`toInt()` is 0). -/
def QModelIndex.invalid : QModelIndex := ⟨false, CInt.ofInt (-1), CInt.ofInt 0⟩

/-! ## The document side (`document.h`, `scene_model.h`) -/

/-- The `QTextEdit` of a document (`Document::text()`): the position of its
text cursor, the start positions of the blocks of its `QTextDocument` (block
number `n` is entry `n`), and whether its `cursorPositionChanged()` signal is
connected to the panel's `selectCurrentScene()` slot. -/
structure QTextEdit where
  cursorPosition : CInt
  blockPositions : List CInt
  cursorPositionChangedConnected : Bool

/-- The `SceneModel` of a document. Its code is not part of this file: the
model is represented by its updates-blocked flag, by the `moveScenes(scenes,
row)` requests it has received so far, and by what `findScene` answers for a
text cursor at a given position. -/
structure SceneModel where
  updatesBlocked : Bool
  moveScenesCalls : List (List CInt × CInt)
  findScene : CInt → QModelIndex

/-- A `Document`: its text edit and its scene model. -/
structure Document where
  text : QTextEdit
  sceneModel : SceneModel

/-- The value of `document()->findBlockByNumber(n).position()`: the start of
block `n`, and `-1` (the position of an invalid `QTextBlock`) when there is no
such block. -/
def QTextEdit.findBlockByNumber_position (t : QTextEdit) (n : CInt) : CInt :=
  if n.val < 0 then CInt.ofInt (-1)
  else (t.blockPositions[n.val.toNat]?).getD (CInt.ofInt (-1))

/-- The position of a cursor after `cursor.setPosition(pos)`: Qt ignores a
position that is out of range, as `-1` is. -/
def QTextCursor_setPosition (cursor pos : CInt) : CInt :=
  if pos.val < 0 then cursor else pos

/-! ## The widgets the panel owns -/

/-- A child widget of which only the visibility matters (`QToolButton`).
`isHidden` is Qt's `isHidden()`: set by `hide()`, cleared by `show()`. -/
structure QWidget where
  isHidden : Bool

/-- The resizer `QFrame`: its `isHidden()` flag and the x coordinate of its top
left corner in the panel. -/
structure QFrame where
  isHidden : Bool
  x : CInt

/-- The filter `QLineEdit`. -/
structure QLineEdit where
  isHidden : Bool
  text : String

/-- The scene `QListView`: the selected indexes and the current index are
indexes of the filter model. -/
structure QListView where
  isHidden : Bool
  dragEnabled : Bool
  selectionMode : SelectionMode
  selection : List QModelIndex
  currentIndex : QModelIndex

/-- The `QSortFilterProxyModel` between the scene model and the view. The two
mappings are computed by Qt from the filter and the source model:
`mapSelectionToSource` stands for
`mapSelectionToSource(selection).indexes()`. -/
structure QSortFilterProxyModel where
  filterFixedString : String
  sourceModel : Option Nat
  mapFromSource : QModelIndex → QModelIndex
  mapSelectionToSource : List QModelIndex → List QModelIndex

/-- The `SceneList` object: its members, and the properties of its `QFrame`
base class that its slots use. `isVisible` is `isVisible()` of the panel
itself (it and all its ancestors are shown), `minimumSizeHint_width` is
`minimumSizeHint().width()` and `expandedMinimumWidth` is
`qRound(1.5 * logicalDpiX())`, both computed by Qt. -/
structure SceneList where
  isVisible : Bool
  m_document : Option Nat
  m_resizing : Bool
  m_width : CInt
  m_mouse_current : QPoint
  m_show_button : QWidget
  m_hide_button : QWidget
  m_scenes : QListView
  m_filter : QLineEdit
  m_resizer : QFrame
  m_filter_model : QSortFilterProxyModel
  width : CInt
  minimumWidth : CInt
  maximumWidth : CInt
  minimumSizeHint_width : CInt
  expandedMinimumWidth : CInt

/-- The panel together with the documents of the application. -/
structure State where
  self : SceneList
  documents : Nat → Document

/-! ## Operations on documents -/

/-- Replace the document at address `d`. -/
def State.setDocumentAt (s : State) (d : Nat) (doc : Document) : State :=
  { s with documents := fun k => if k = d then doc else s.documents k }

/-- Call `sceneModel()->setUpdatesBlocked(b)` on document `d`. -/
def setUpdatesBlocked (s : State) (d : Nat) (b : Bool) : State :=
  s.setDocumentAt d { s.documents d with sceneModel.updatesBlocked := b }

/-- Connect (`b = true`) or disconnect the `cursorPositionChanged()` signal of
the text of document `d` and the `selectCurrentScene()` slot. -/
def setConnected (s : State) (d : Nat) (b : Bool) : State :=
  s.setDocumentAt d { s.documents d with text.cursorPositionChangedConnected := b }

/-- Call `sceneModel()->moveScenes(scenes, row)` on document `d`. -/
def moveScenes (s : State) (d : Nat) (scenes : List CInt) (row : CInt) : State :=
  s.setDocumentAt d { s.documents d with
    sceneModel.moveScenesCalls := (s.documents d).sceneModel.moveScenesCalls ++ [(scenes, row)] }

/-! ## Qt calls on the panel and its children -/

/-- Qt: `QWIDGETSIZE_MAX`, the largest width of a widget. -/
def QWIDGETSIZE_MAX : CInt := CInt.ofInt 16777215

/-- Qt: `isVisible()` of a child widget of the panel whose `isHidden()` flag is
`isHidden`: the child is not hidden and the panel itself is visible. -/
def childVisible (s : State) (isHidden : Bool) : Bool :=
  s.self.isVisible && !isHidden

/-- The application shows (`visible = true`) or hides the panel, or the window
it is in. The `isHidden()` flags of the children stay as they are. -/
def setPanelVisible (s : State) (visible : Bool) : State :=
  { s with self.isVisible := visible }

/-- Qt: `setMinimumWidth(minw)` (`QWidgetPrivate::setMinimumSize_helper`): the
value `QWIDGETSIZE_MAX` stands for no minimum, a larger value is lowered to
`QWIDGETSIZE_MAX` and a negative one raised to 0. -/
def setMinimumWidth (s : State) (minw : CInt) : State :=
  let mw := if minw.val = QWIDGETSIZE_MAX.val then CInt.ofInt 0 else minw
  let mw := if QWIDGETSIZE_MAX.val < minw.val then qMin minw QWIDGETSIZE_MAX else mw
  let mw := if minw.val < 0 then qMax minw (CInt.ofInt 0) else mw
  { s with self.minimumWidth := mw }

/-- Qt: `setMaximumWidth(maxw)` (`QWidgetPrivate::setMaximumSize_helper`): a
value above `QWIDGETSIZE_MAX` is lowered to it and a negative one raised to 0. -/
def setMaximumWidth (s : State) (maxw : CInt) : State :=
  let maxw := if QWIDGETSIZE_MAX.val < maxw.val then qMin maxw QWIDGETSIZE_MAX else maxw
  let maxw := if maxw.val < 0 then qMax maxw (CInt.ofInt 0) else maxw
  { s with self.maximumWidth := maxw }

/-! ## The member functions of `SceneList` -/

/-- Member function `SceneList::scenesVisible()`: `m_scenes->isVisible()`. -/
def scenesVisible (s : State) : Bool :=
  childVisible s s.self.m_scenes.isHidden

/-- The source indexes `moveSelectedScenes` works on:
`m_filter_model->mapSelectionToSource(m_scenes->selectionModel()->selection()).indexes()`. -/
def selectedSourceIndexes (s : State) : List QModelIndex :=
  s.self.m_filter_model.mapSelectionToSource s.self.m_scenes.selection

/-- Member function `SceneList::setFilter(filter)`. What the new filter does to
the rows shown in the view is Qt's and is not recomputed here. -/
def setFilter (s : State) (filter : String) : State :=
  let s := { s with self.m_filter_model.filterFixedString := filter }
  if filter.isEmpty then
    { s with self.m_scenes.dragEnabled := true,
             self.m_scenes.selectionMode := SelectionMode.ExtendedSelection }
  else
    { s with self.m_scenes.dragEnabled := false,
             self.m_scenes.selectionMode := SelectionMode.SingleSelection }

/-- The call `m_filter->clear()`: when the text changes, `textChanged("")` runs
the connected `setFilter` slot. -/
def m_filter_clear (s : State) : State :=
  if s.self.m_filter.text.isEmpty then s
  else setFilter { s with self.m_filter.text := "" } ""

/-- Member function `SceneList::selectCurrentScene()`. With the signals of the
selection model blocked, `clearSelection()` and `setCurrentIndex(index)` leave
`index` as the current index and as the only selected one (nothing is selected
when the filter model has no index for the scene). -/
def selectCurrentScene (s : State) : State :=
  match s.self.m_document with
  | none => s
  | some d =>
    if !scenesVisible s then s
    else
      let index := (s.documents d).sceneModel.findScene (s.documents d).text.cursorPosition
      if index.isValid then
        let index := s.self.m_filter_model.mapFromSource index
        let s := { s with self.m_scenes.selection := [] }
        { s with self.m_scenes.currentIndex := index,
                 self.m_scenes.selection := if index.isValid then [index] else [] }
      else s

/-- The call `text()->setTextCursor(cursor)` on document `d`: the cursor moves,
and when its position changed `cursorPositionChanged()` runs
`selectCurrentScene()` if that slot is connected. -/
def setTextCursor (s : State) (d : Nat) (cursor : CInt) : State :=
  let old := (s.documents d).text
  let s1 := s.setDocumentAt d { s.documents d with text.cursorPosition := cursor }
  if cursor.val ≠ old.cursorPosition.val ∧ old.cursorPositionChangedConnected then
    selectCurrentScene s1
  else s1

/-- Member function `SceneList::sceneSelected(index)`. -/
def sceneSelected (s : State) (index : QModelIndex) : State :=
  match s.self.m_document with
  | none => s
  | some d =>
    if !scenesVisible s then s
    else if index.isValid then
      let block_number := index.userRole
      let position := (s.documents d).text.findBlockByNumber_position block_number
      let cursor := QTextCursor_setPosition (s.documents d).text.cursorPosition position
      setTextCursor s d cursor
    else s

/-- Member function `SceneList::hideScenes()`. -/
def hideScenes (s : State) : State :=
  let s := match s.self.m_document with
    | some d => setConnected (setUpdatesBlocked s d true) d false
    | none => s
  let s := { s with self.m_show_button.isHidden := false }
  let s := { s with self.m_hide_button.isHidden := true,
                    self.m_scenes.isHidden := true,
                    self.m_filter.isHidden := true,
                    self.m_resizer.isHidden := true }
  let s := setMinimumWidth s (CInt.ofInt 0)
  let s := setMaximumWidth s s.self.minimumSizeHint_width
  m_filter_clear s

/-- Member function `SceneList::showScenes()`. -/
def showScenes (s : State) : State :=
  let s := { s with self.m_hide_button.isHidden := false,
                    self.m_scenes.isHidden := false,
                    self.m_filter.isHidden := false,
                    self.m_resizer.isHidden := false }
  let s := { s with self.m_show_button.isHidden := true }
  let s := setMinimumWidth s s.self.expandedMinimumWidth
  let s := setMaximumWidth s s.self.m_width
  match s.self.m_document with
  | some d => selectCurrentScene (setConnected (setUpdatesBlocked s d false) d true)
  | none => s

/-- Member function `SceneList::setDocument(document)`. The argument is
dereferenced without a test, so a null `document` has no result.
`setSourceModel` resets the view: no index is selected or current afterwards. -/
def setDocument (s : State) (document : Option Nat) : Option State :=
  let s := match s.self.m_document with
    | some d => setConnected s d false
    | none => s
  let s := { s with self.m_document := none }
  let s := { s with self.m_scenes.selection := [] }
  let s := m_filter_clear s
  match document with
  | none => none
  | some d =>
    let s := { s with self.m_filter_model.sourceModel := some d,
                      self.m_scenes.selection := [],
                      self.m_scenes.currentIndex := QModelIndex.invalid }
    let s := { s with self.m_document := some d }
    if scenesVisible s then
      some (selectCurrentScene (setConnected (setUpdatesBlocked s d false) d true))
    else some s

/-- Member function `SceneList::mouseMoveEvent(event)`. -/
def mouseMoveEvent (s : State) (event : QMouseEvent) : State :=
  if s.self.m_resizing then
    let delta := CInt.sub event.pos.x s.self.m_mouse_current.x
    let s := { s with self.m_mouse_current := event.pos }
    let s := { s with self.m_width := CInt.add s.self.m_width delta }
    let s := { s with self.m_width := qMax s.self.minimumWidth s.self.m_width }
    setMaximumWidth s s.self.m_width
  else s

/-- Member function `SceneList::mousePressEvent(event)`. The top left corner of
the resizer's own rectangle is `(0, 0)`, which `mapToParent` moves by the
resizer's position. -/
def mousePressEvent (s : State) (event : QMouseEvent) : State :=
  if scenesVisible s ∧ event.button = MouseButton.LeftButton ∧
      (CInt.add (CInt.ofInt 0) s.self.m_resizer.x).val ≤ event.pos.x.val then
    { s with self.m_width := s.self.width,
             self.m_mouse_current := event.pos,
             self.m_resizing := true }
  else s

/-- Member function `SceneList::mouseReleaseEvent(event)`. -/
def mouseReleaseEvent (s : State) (event : QMouseEvent) : State :=
  if event.button = MouseButton.LeftButton then
    { s with self.m_resizing := false }
  else s

/-- The variables of the loop of `moveSelectedScenes`. -/
structure MoveLoop where
  first_row : CInt
  last_row : CInt
  scenes : List CInt

/-- One iteration of the loop of `moveSelectedScenes`. -/
def MoveLoop.step (l : MoveLoop) (index : QModelIndex) : MoveLoop :=
  let index_row := index.row
  { first_row := qMin l.first_row index_row,
    last_row := qMax l.last_row index_row,
    scenes := l.scenes ++ [index_row] }

/-- The loop of `moveSelectedScenes` over `indexes`. -/
def MoveLoop.run (indexes : List QModelIndex) : MoveLoop :=
  indexes.foldl MoveLoop.step
    { first_row := CInt.ofInt INT_MAX, last_row := CInt.ofInt 0, scenes := [] }

/-- The target row `moveSelectedScenes` computes after its loop. -/
def targetRow (l : MoveLoop) (movement : CInt) : CInt :=
  qMax (CInt.ofInt 0)
    (CInt.add (if 0 < movement.val then CInt.add l.last_row (CInt.ofInt 1) else l.first_row)
      movement)

/-- Member function `SceneList::moveSelectedScenes(movement)`. With a non-empty
selection the document pointer is dereferenced without a test. -/
def moveSelectedScenes (s : State) (movement : CInt) : Option State :=
  let indexes := selectedSourceIndexes s
  if indexes.isEmpty then some s
  else
    let l := MoveLoop.run indexes
    let row := targetRow l movement
    match s.self.m_document with
    | none => none
    | some d => some (moveScenes s d l.scenes row)

/-- Member function `SceneList::moveScenesDown()`. -/
def moveScenesDown (s : State) : Option State :=
  moveSelectedScenes s (CInt.ofInt 1)

/-- Member function `SceneList::moveScenesUp()`. -/
def moveScenesUp (s : State) : Option State :=
  moveSelectedScenes s (CInt.ofInt (-1))

/-- The constructor `SceneList::SceneList(parent)`. `env` supplies what Qt and
the application provide (geometry, size hints, the mappings of the filter
model, the documents) and `settingsWidth` is the `int` read from the settings,
`QSettings().value("SceneList/Width", qRound(3.5 * logicalDpiX())).toInt()`.
A widget under construction is not visible, its new children are not hidden,
and it has no minimum width and the maximum width `QWIDGETSIZE_MAX`. -/
def SceneList.ctor (env : State) (settingsWidth : CInt) : State :=
  let s : State := { env with self := { env.self with
    isVisible := false,
    m_document := none,
    m_resizing := false,
    m_mouse_current := ⟨CInt.ofInt 0, CInt.ofInt 0⟩,
    minimumWidth := CInt.ofInt 0,
    maximumWidth := QWIDGETSIZE_MAX,
    m_show_button := ⟨false⟩,
    m_hide_button := ⟨false⟩,
    m_filter_model := { env.self.m_filter_model with
      filterFixedString := "", sourceModel := none },
    m_scenes := { isHidden := false, dragEnabled := true,
                  selectionMode := SelectionMode.ExtendedSelection,
                  selection := [], currentIndex := QModelIndex.invalid },
    m_filter := { isHidden := false, text := "" },
    m_resizer := { env.self.m_resizer with isHidden := false } } }
  let s := { s with self.m_width := qBound (CInt.ofInt 0) settingsWidth s.self.maximumWidth }
  let s := { s with self.m_scenes.isHidden := false }
  hideScenes s

/-! ## Sequences of calls -/

/-- The two slots that collapse and expand the panel, and the application
showing or hiding the panel itself. -/
inductive Toggle where
  | hideScenes
  | showScenes
  | setVisible (visible : Bool)

/-- Run one of them. -/
def Toggle.call (op : Toggle) (s : State) : State :=
  match op with
  | Toggle.hideScenes => FocusWriter.hideScenes s
  | Toggle.showScenes => FocusWriter.showScenes s
  | Toggle.setVisible visible => setPanelVisible s visible

/-- Run a sequence of `hideScenes`/`showScenes` calls and of changes of the
panel's own visibility, first one first. -/
def Toggle.run (ops : List Toggle) (s : State) : State :=
  ops.foldl (fun s op => op.call s) s

/-- The calls that touch the updates-blocked flag of a scene model:
`setDocument` with the address of a document, `hideScenes`, `showScenes`. -/
inductive Call where
  | setDocument (document : Nat)
  | hideScenes
  | showScenes

/-- Run one call. -/
def Call.call (op : Call) (s : State) : Option State :=
  match op with
  | Call.setDocument document => FocusWriter.setDocument s (some document)
  | Call.hideScenes => some (FocusWriter.hideScenes s)
  | Call.showScenes => some (FocusWriter.showScenes s)

/-- Run a sequence of calls, first call first. -/
def Call.run (ops : List Call) (s : State) : Option State :=
  match ops with
  | [] => some s
  | op :: rest => (op.call s).bind (Call.run rest)

/-! ## Observations and example states -/

/-- The `moveScenes(scenes, row)` requests the scene model of document `d` has
received, as plain integers. -/
def moveScenesRequests (s : State) (d : Nat) : List (List Int × Int) :=
  (s.documents d).sceneModel.moveScenesCalls.map (fun c => (c.1.map CInt.val, c.2.val))

/-- A valid index with the given row and the given block number as its
user-role data. -/
def QModelIndex.ofRow (row block : Int) : QModelIndex :=
  ⟨true, CInt.ofInt row, CInt.ofInt block⟩

/-- A document whose text has three blocks, starting at positions 0, 40 and
95; `findScene` answers the row of the block the cursor is in. The cursor is
at 0, updates are blocked, nothing is connected and no request has been
received. -/
def exampleDocument : Document :=
  { text := { cursorPosition := CInt.ofInt 0,
              blockPositions := [CInt.ofInt 0, CInt.ofInt 40, CInt.ofInt 95],
              cursorPositionChangedConnected := false },
    sceneModel := { updatesBlocked := true, moveScenesCalls := [],
                    findScene := fun pos =>
                      if pos.val < 40 then QModelIndex.ofRow 0 0
                      else if pos.val < 95 then QModelIndex.ofRow 1 1
                      else QModelIndex.ofRow 2 2 } }

/-- An environment for the constructor: a panel 300 wide whose resizer is at
x = 290, an unfiltered proxy model (both mappings are the identity), and
`exampleDocument` at every address. -/
def exampleEnv : State :=
  { self := { isVisible := false,
              m_document := none, m_resizing := false, m_width := CInt.ofInt 0,
              m_mouse_current := ⟨CInt.ofInt 0, CInt.ofInt 0⟩,
              m_show_button := ⟨false⟩, m_hide_button := ⟨false⟩,
              m_scenes := { isHidden := false, dragEnabled := false,
                            selectionMode := SelectionMode.SingleSelection,
                            selection := [], currentIndex := QModelIndex.invalid },
              m_filter := { isHidden := false, text := "" },
              m_resizer := { isHidden := false, x := CInt.ofInt 290 },
              m_filter_model := { filterFixedString := "", sourceModel := none,
                                  mapFromSource := fun i => i,
                                  mapSelectionToSource := fun l => l },
              width := CInt.ofInt 300, minimumWidth := CInt.ofInt 0,
              maximumWidth := CInt.ofInt 0, minimumSizeHint_width := CInt.ofInt 24,
              expandedMinimumWidth := CInt.ofInt 144 },
    documents := fun _ => exampleDocument }

/-- The panel right after construction with a stored width of 300. -/
def exampleCollapsed : State := SceneList.ctor exampleEnv (CInt.ofInt 300)

/-- The constructed panel once the application has shown it. -/
def exampleShown : State := setPanelVisible exampleCollapsed true

/-- Expand the panel, attach document 1, then document 0, collapse the panel
and attach document 1 again. -/
def exampleCalls : List Call :=
  [Call.showScenes, Call.setDocument 1, Call.setDocument 0, Call.hideScenes,
    Call.setDocument 1]

/-- A mouse event with the given button at the given position. -/
def QMouseEvent.ofButton (button : MouseButton) (x y : Int) : QMouseEvent :=
  ⟨button, ⟨CInt.ofInt x, CInt.ofInt y⟩⟩

/-- The shown and expanded panel, document 0 attached, with valid indexes of
the given rows selected. -/
def exampleSelected (rows : List Int) : State :=
  let s := showScenes exampleShown
  let s := (setDocument s (some 0)).getD s
  { s with self.m_scenes.selection := rows.map (fun r => QModelIndex.ofRow r r) }

/-- The expanded panel after a left press on its resizer at x = 295: it is
being resized, its stored width is 300 and its minimum width 144. -/
def exampleResizing : State :=
  mousePressEvent (exampleSelected []) (QMouseEvent.ofButton MouseButton.LeftButton 295 10)

/-! ## Arithmetic of `int` -/

theorem wrap_range (i : Int) : INT_MIN ≤ wrap i ∧ wrap i ≤ INT_MAX := by
  unfold wrap INT_MIN INT_MAX
  omega

theorem wrap_of_range (i : Int) (hlo : INT_MIN ≤ i) (hhi : i ≤ INT_MAX) : wrap i = i := by
  unfold wrap
  unfold INT_MIN at hlo
  unfold INT_MAX at hhi
  omega

theorem CInt.ext_val {a b : CInt} (h : a.val = b.val) : a = b := by
  cases a
  cases b
  simp only [CInt.mk.injEq]
  exact h

theorem CInt.val_lo (a : CInt) : -2147483648 ≤ a.val := by
  have h := a.inRange.1
  unfold INT_MIN at h
  exact h

theorem CInt.val_hi (a : CInt) : a.val ≤ 2147483647 := by
  have h := a.inRange.2
  unfold INT_MAX at h
  exact h

theorem CInt.ofInt_val (i : Int) (hlo : -2147483648 ≤ i) (hhi : i ≤ 2147483647) :
    (CInt.ofInt i).val = i := by
  show wrap i = i
  unfold wrap
  omega

theorem CInt.add_val (a b : CInt) (hlo : -2147483648 ≤ a.val + b.val)
    (hhi : a.val + b.val ≤ 2147483647) : (CInt.add a b).val = a.val + b.val :=
  CInt.ofInt_val _ hlo hhi

theorem CInt.sub_val (a b : CInt) (hlo : -2147483648 ≤ a.val - b.val)
    (hhi : a.val - b.val ≤ 2147483647) : (CInt.sub a b).val = a.val - b.val :=
  CInt.ofInt_val _ hlo hhi

theorem CInt.zero_add (a : CInt) : CInt.add (CInt.ofInt 0) a = a := by
  apply CInt.ext_val
  have h0 : (CInt.ofInt 0).val = 0 := by decide
  have hlo := a.val_lo
  have hhi := a.val_hi
  rw [CInt.add_val _ _ (by omega) (by omega), h0]
  omega

theorem qMax_val (a b : CInt) : (qMax a b).val = max a.val b.val := by
  unfold qMax
  split <;> omega

theorem qMin_val (a b : CInt) : (qMin a b).val = min a.val b.val := by
  unfold qMin
  split <;> omega

/-! ## The loop of `moveSelectedScenes` -/

theorem MoveLoop.foldl_scenes (indexes : List QModelIndex) (l : MoveLoop) :
    (indexes.foldl MoveLoop.step l).scenes = l.scenes ++ indexes.map QModelIndex.row := by
  induction indexes generalizing l with
  | nil => simp
  | cons i rest ih =>
    simp only [List.foldl_cons, List.map_cons]
    rw [ih]
    simp [MoveLoop.step]

theorem MoveLoop.foldl_last_row (indexes : List QModelIndex) (l : MoveLoop) :
    l.last_row.val ≤ (indexes.foldl MoveLoop.step l).last_row.val ∧
    (∀ i ∈ indexes, i.row.val ≤ (indexes.foldl MoveLoop.step l).last_row.val) ∧
    ((indexes.foldl MoveLoop.step l).last_row.val = l.last_row.val ∨
      ∃ i ∈ indexes, (indexes.foldl MoveLoop.step l).last_row.val = i.row.val) := by
  induction indexes generalizing l with
  | nil => simp
  | cons i rest ih =>
    simp only [List.foldl_cons, List.mem_cons]
    obtain ⟨h1, h2, h3⟩ := ih (MoveLoop.step l i)
    have hs : (MoveLoop.step l i).last_row.val = max l.last_row.val i.row.val := by
      simp [MoveLoop.step, qMax_val]
    refine ⟨by omega, ?_, ?_⟩
    · intro j hj
      rcases hj with rfl | hj
      · omega
      · exact h2 j hj
    · rcases h3 with h3 | ⟨j, hj, h3⟩
      · rcases le_total l.last_row.val i.row.val with hle | hle
        · right
          exact ⟨i, Or.inl rfl, by omega⟩
        · left
          omega
      · right
        exact ⟨j, Or.inr hj, h3⟩

theorem MoveLoop.foldl_first_row (indexes : List QModelIndex) (l : MoveLoop) :
    (indexes.foldl MoveLoop.step l).first_row.val ≤ l.first_row.val ∧
    (∀ i ∈ indexes, (indexes.foldl MoveLoop.step l).first_row.val ≤ i.row.val) ∧
    ((indexes.foldl MoveLoop.step l).first_row.val = l.first_row.val ∨
      ∃ i ∈ indexes, (indexes.foldl MoveLoop.step l).first_row.val = i.row.val) := by
  induction indexes generalizing l with
  | nil => simp
  | cons i rest ih =>
    simp only [List.foldl_cons, List.mem_cons]
    obtain ⟨h1, h2, h3⟩ := ih (MoveLoop.step l i)
    have hs : (MoveLoop.step l i).first_row.val = min l.first_row.val i.row.val := by
      simp [MoveLoop.step, qMin_val]
    refine ⟨by omega, ?_, ?_⟩
    · intro j hj
      rcases hj with rfl | hj
      · omega
      · exact h2 j hj
    · rcases h3 with h3 | ⟨j, hj, h3⟩
      · rcases le_total l.first_row.val i.row.val with hle | hle
        · left
          omega
        · right
          exact ⟨i, Or.inl rfl, by omega⟩
      · right
        exact ⟨j, Or.inr hj, h3⟩

/-- After the loop `scenes` holds the rows of the indexes, in their order. -/
theorem MoveLoop.run_scenes (indexes : List QModelIndex) :
    (MoveLoop.run indexes).scenes = indexes.map QModelIndex.row := by
  unfold MoveLoop.run
  rw [MoveLoop.foldl_scenes]
  simp

/-- After the loop over a non-empty list of non-negative rows `last_row` is
the largest of them. -/
theorem MoveLoop.run_last_row (indexes : List QModelIndex) (hne : indexes ≠ [])
    (hrows : ∀ i ∈ indexes, 0 ≤ i.row.val) :
    (∃ i ∈ indexes, (MoveLoop.run indexes).last_row.val = i.row.val) ∧
    ∀ i ∈ indexes, i.row.val ≤ (MoveLoop.run indexes).last_row.val := by
  unfold MoveLoop.run
  obtain ⟨h1, h2, h3⟩ := MoveLoop.foldl_last_row indexes
    { first_row := CInt.ofInt INT_MAX, last_row := CInt.ofInt 0, scenes := [] }
  refine ⟨?_, h2⟩
  rcases h3 with h3 | h3
  · obtain ⟨i, rest, rfl⟩ := List.exists_cons_of_ne_nil hne
    refine ⟨i, List.mem_cons_self _ _, ?_⟩
    have hi := h2 i (List.mem_cons_self _ _)
    have h0 := hrows i (List.mem_cons_self _ _)
    have hz : (CInt.ofInt 0).val = 0 := by decide
    simp only [hz] at h3
    omega
  · exact h3

/-- After the loop over a non-empty list `first_row` is the smallest row. -/
theorem MoveLoop.run_first_row (indexes : List QModelIndex) (hne : indexes ≠ []) :
    (∃ i ∈ indexes, (MoveLoop.run indexes).first_row.val = i.row.val) ∧
    ∀ i ∈ indexes, (MoveLoop.run indexes).first_row.val ≤ i.row.val := by
  unfold MoveLoop.run
  obtain ⟨h1, h2, h3⟩ := MoveLoop.foldl_first_row indexes
    { first_row := CInt.ofInt INT_MAX, last_row := CInt.ofInt 0, scenes := [] }
  refine ⟨?_, h2⟩
  rcases h3 with h3 | h3
  · obtain ⟨i, rest, rfl⟩ := List.exists_cons_of_ne_nil hne
    refine ⟨i, List.mem_cons_self _ _, ?_⟩
    have hi := h2 i (List.mem_cons_self _ _)
    have hhi := i.row.val_hi
    have hz : (CInt.ofInt INT_MAX).val = 2147483647 := by decide
    simp only [hz] at h3
    omega
  · exact h3

/-- With a non-empty selection `moveSelectedScenes` runs its loop and calls
`moveScenes` on the document pointer. -/
theorem moveSelectedScenes_of_ne_nil (s : State) (movement : CInt)
    (hne : selectedSourceIndexes s ≠ []) :
    moveSelectedScenes s movement =
      s.self.m_document.map (fun d => moveScenes s d
        (MoveLoop.run (selectedSourceIndexes s)).scenes
        (targetRow (MoveLoop.run (selectedSourceIndexes s)) movement)) := by
  unfold moveSelectedScenes
  have hemp : (selectedSourceIndexes s).isEmpty = false := by
    cases h : selectedSourceIndexes s with
    | nil => exact absurd h hne
    | cons a l => rfl
  simp only [hemp]
  cases s.self.m_document <;> rfl

/-! ## Moving the selected scenes -/

/-- C1, counterexample: with the single row 2147483646 selected (a non-empty
selection of a non-negative `int` row), `(last_row + 1) + movement` leaves the
range of `int` and `moveScenesDown` requests target row 0, not 2147483646 + 2,
which no `int` can be. -/
theorem moveScenesDown_target_row_overflow :
    selectedSourceIndexes (exampleSelected [2147483646]) ≠ [] ∧
    (∀ i ∈ selectedSourceIndexes (exampleSelected [2147483646]), 0 ≤ i.row.val) ∧
    (selectedSourceIndexes (exampleSelected [2147483646])).map (fun i => i.row.val)
      = [2147483646] ∧
    (moveScenesDown (exampleSelected [2147483646])).map (fun s => moveScenesRequests s 0)
      = some [([2147483646], 0)] ∧
    (0 : Int) ≠ 2147483646 + 2 := by
  decide

/-- C1, amended: for every non-empty selection whose source rows are all
non-negative and at most `INT_MAX - 2`, `moveScenesDown` calls `moveScenes` on
the document pointer with a target row that is the largest selected row plus
2, whatever the order or contiguity of the rows. -/
theorem moveScenesDown_target_row (s : State)
    (hne : selectedSourceIndexes s ≠ [])
    (hrows : ∀ i ∈ selectedSourceIndexes s, 0 ≤ i.row.val ∧ i.row.val + 2 ≤ INT_MAX) :
    ∃ scenes row,
      moveScenesDown s = s.self.m_document.map (fun d => moveScenes s d scenes row) ∧
      (∃ i ∈ selectedSourceIndexes s, row.val = i.row.val + 2) ∧
      ∀ i ∈ selectedSourceIndexes s, i.row.val + 2 ≤ row.val := by
  obtain ⟨⟨m, hm, hlast⟩, hmax⟩ :=
    MoveLoop.run_last_row (selectedSourceIndexes s) hne (fun i hi => (hrows i hi).1)
  have hm2 := hrows m hm
  unfold INT_MAX at hm2
  have h1 : (CInt.ofInt 1).val = 1 := by decide
  have h0 : (CInt.ofInt 0).val = 0 := by decide
  have hrow : (targetRow (MoveLoop.run (selectedSourceIndexes s)) (CInt.ofInt 1)).val
      = m.row.val + 2 := by
    unfold targetRow
    rw [qMax_val, h0, h1, if_pos (by decide)]
    have ha : (CInt.add (MoveLoop.run (selectedSourceIndexes s)).last_row (CInt.ofInt 1)).val
        = m.row.val + 1 := by
      rw [CInt.add_val _ _ (by rw [h1]; omega) (by rw [h1]; omega), h1, hlast]
    rw [CInt.add_val _ _ (by rw [ha, h1]; omega) (by rw [ha, h1]; omega), ha, h1]
    omega
  refine ⟨_, _, moveSelectedScenes_of_ne_nil s (CInt.ofInt 1) hne, ⟨m, hm, hrow⟩, ?_⟩
  intro i hi
  have := hmax i hi
  omega

/-- A use of `moveScenesDown_target_row`: rows 3, 1 and 5 selected. -/
theorem moveScenesDown_target_row_witness :
    ∃ scenes row,
      moveScenesDown (exampleSelected [3, 1, 5]) =
        (exampleSelected [3, 1, 5]).self.m_document.map
          (fun d => moveScenes (exampleSelected [3, 1, 5]) d scenes row) ∧
      (∃ i ∈ selectedSourceIndexes (exampleSelected [3, 1, 5]), row.val = i.row.val + 2) ∧
      ∀ i ∈ selectedSourceIndexes (exampleSelected [3, 1, 5]), i.row.val + 2 ≤ row.val :=
  moveScenesDown_target_row (exampleSelected [3, 1, 5]) (by decide) (by decide)

/-- C2: for every non-empty selection whose source rows are all non-negative,
`moveScenesUp` calls `moveScenes` on the document pointer with target row
`max(0, smallest selected row - 1)`; that row is never negative and is 0 when
row 0 is selected. -/
theorem moveScenesUp_target_row (s : State)
    (hne : selectedSourceIndexes s ≠ [])
    (hrows : ∀ i ∈ selectedSourceIndexes s, 0 ≤ i.row.val) :
    ∃ scenes row,
      moveScenesUp s = s.self.m_document.map (fun d => moveScenes s d scenes row) ∧
      (∃ i ∈ selectedSourceIndexes s,
        (∀ j ∈ selectedSourceIndexes s, i.row.val ≤ j.row.val) ∧
        row.val = max 0 (i.row.val - 1)) ∧
      0 ≤ row.val ∧
      ((∃ i ∈ selectedSourceIndexes s, i.row.val = 0) → row.val = 0) := by
  obtain ⟨⟨m, hm, hfirst⟩, hmin⟩ := MoveLoop.run_first_row (selectedSourceIndexes s) hne
  have hm0 := hrows m hm
  have hmhi := m.row.val_hi
  have hn1 : (CInt.ofInt (-1)).val = -1 := by decide
  have h0 : (CInt.ofInt 0).val = 0 := by decide
  have hrow : (targetRow (MoveLoop.run (selectedSourceIndexes s)) (CInt.ofInt (-1))).val
      = max 0 (m.row.val - 1) := by
    unfold targetRow
    rw [qMax_val, h0, hn1, if_neg (by decide),
      CInt.add_val _ _ (by rw [hn1, hfirst]; omega) (by rw [hn1, hfirst]; omega), hn1, hfirst]
    rfl
  refine ⟨_, _, moveSelectedScenes_of_ne_nil s (CInt.ofInt (-1)) hne,
    ⟨m, hm, fun j hj => by have := hmin j hj; omega, hrow⟩, by rw [hrow]; omega, ?_⟩
  rintro ⟨i, hi, hi0⟩
  have := hmin i hi
  rw [hrow]
  omega

/-- A use of `moveScenesUp_target_row`: rows 4, 0 and 2 selected. -/
theorem moveScenesUp_target_row_witness :
    ∃ scenes row,
      moveScenesUp (exampleSelected [4, 0, 2]) =
        (exampleSelected [4, 0, 2]).self.m_document.map
          (fun d => moveScenes (exampleSelected [4, 0, 2]) d scenes row) ∧
      (∃ i ∈ selectedSourceIndexes (exampleSelected [4, 0, 2]),
        (∀ j ∈ selectedSourceIndexes (exampleSelected [4, 0, 2]), i.row.val ≤ j.row.val) ∧
        row.val = max 0 (i.row.val - 1)) ∧
      0 ≤ row.val ∧
      ((∃ i ∈ selectedSourceIndexes (exampleSelected [4, 0, 2]), i.row.val = 0) →
        row.val = 0) :=
  moveScenesUp_target_row (exampleSelected [4, 0, 2]) (by decide) (by decide)

/-- C3: for every non-empty list of selected source indexes and every
movement, the scenes `moveSelectedScenes` passes to `moveScenes` are the rows
of those indexes, one per index and in the order of the index list. -/
theorem moveSelectedScenes_scenes (s : State) (movement : CInt)
    (hne : selectedSourceIndexes s ≠ []) :
    ∃ row, moveSelectedScenes s movement =
      s.self.m_document.map (fun d =>
        moveScenes s d ((selectedSourceIndexes s).map QModelIndex.row) row) := by
  refine ⟨targetRow (MoveLoop.run (selectedSourceIndexes s)) movement, ?_⟩
  rw [moveSelectedScenes_of_ne_nil s movement hne, MoveLoop.run_scenes]

/-- A use of `moveSelectedScenes_scenes`: rows 5, 2, 2 and 9 selected, moving
up. -/
theorem moveSelectedScenes_scenes_witness :
    ∃ row, moveSelectedScenes (exampleSelected [5, 2, 2, 9]) (CInt.ofInt (-1)) =
      (exampleSelected [5, 2, 2, 9]).self.m_document.map (fun d =>
        moveScenes (exampleSelected [5, 2, 2, 9]) d
          ((selectedSourceIndexes (exampleSelected [5, 2, 2, 9])).map QModelIndex.row) row) :=
  moveSelectedScenes_scenes (exampleSelected [5, 2, 2, 9]) (CInt.ofInt (-1)) (by decide)

/-- C9: when the selection maps to no source index, `moveSelectedScenes`
returns at once for every movement: the state, the scene models included, is
unchanged, and this also holds when no document is set. -/
theorem moveSelectedScenes_empty (s : State) (movement : CInt)
    (hempty : selectedSourceIndexes s = []) :
    moveSelectedScenes s movement = some s := by
  unfold moveSelectedScenes
  simp [hempty]

/-- A use of `moveSelectedScenes_empty`: the freshly constructed panel, which
has no document and no selection. -/
theorem moveSelectedScenes_empty_witness :
    exampleCollapsed.self.m_document = none ∧
    moveSelectedScenes exampleCollapsed (CInt.ofInt 1) = some exampleCollapsed :=
  ⟨by decide, moveSelectedScenes_empty exampleCollapsed (CInt.ofInt 1) (by decide)⟩

/-! ## Frame lemmas -/

theorem m_filter_clear_frame (s : State) :
    (m_filter_clear s).documents = s.documents ∧
    (m_filter_clear s).self.m_document = s.self.m_document ∧
    (m_filter_clear s).self.isVisible = s.self.isVisible ∧
    (m_filter_clear s).self.m_show_button = s.self.m_show_button ∧
    (m_filter_clear s).self.m_hide_button = s.self.m_hide_button ∧
    (m_filter_clear s).self.m_scenes.isHidden = s.self.m_scenes.isHidden ∧
    (m_filter_clear s).self.m_filter.isHidden = s.self.m_filter.isHidden ∧
    (m_filter_clear s).self.m_resizer = s.self.m_resizer := by
  have he : ("" : String).isEmpty = true := rfl
  by_cases h : s.self.m_filter.text.isEmpty = true
  · simp [m_filter_clear, h]
  · simp [m_filter_clear, h, setFilter, he]

theorem selectCurrentScene_frame (s : State) :
    (selectCurrentScene s).documents = s.documents ∧
    (selectCurrentScene s).self.m_document = s.self.m_document ∧
    (selectCurrentScene s).self.isVisible = s.self.isVisible ∧
    (selectCurrentScene s).self.m_show_button = s.self.m_show_button ∧
    (selectCurrentScene s).self.m_hide_button = s.self.m_hide_button ∧
    (selectCurrentScene s).self.m_scenes.isHidden = s.self.m_scenes.isHidden ∧
    (selectCurrentScene s).self.m_filter.isHidden = s.self.m_filter.isHidden ∧
    (selectCurrentScene s).self.m_resizer = s.self.m_resizer := by
  cases hd : s.self.m_document with
  | none => simp [selectCurrentScene, hd]
  | some d =>
    by_cases hv : scenesVisible s = true
    · by_cases hi : ((s.documents d).sceneModel.findScene
          (s.documents d).text.cursorPosition).isValid = true
      · simp [selectCurrentScene, hd, hv, hi]
      · simp [selectCurrentScene, hd, hv, hi]
    · simp [selectCurrentScene, hd, hv]

/-- The `isHidden()` flags after `hideScenes`; the panel's own visibility is
as before. -/
theorem hideScenes_widgets (s : State) :
    (hideScenes s).self.m_show_button.isHidden = false ∧
    (hideScenes s).self.m_hide_button.isHidden = true ∧
    (hideScenes s).self.m_scenes.isHidden = true ∧
    (hideScenes s).self.m_filter.isHidden = true ∧
    (hideScenes s).self.m_resizer.isHidden = true ∧
    (hideScenes s).self.isVisible = s.self.isVisible := by
  unfold hideScenes
  cases hd : s.self.m_document with
  | none => simp [m_filter_clear_frame, setMinimumWidth, setMaximumWidth]
  | some d => simp [m_filter_clear_frame, setMinimumWidth, setMaximumWidth, setConnected,
      setUpdatesBlocked, State.setDocumentAt]

/-- The `isHidden()` flags after `showScenes`; the panel's own visibility is
as before. -/
theorem showScenes_widgets (s : State) :
    (showScenes s).self.m_show_button.isHidden = true ∧
    (showScenes s).self.m_hide_button.isHidden = false ∧
    (showScenes s).self.m_scenes.isHidden = false ∧
    (showScenes s).self.m_filter.isHidden = false ∧
    (showScenes s).self.m_resizer.isHidden = false ∧
    (showScenes s).self.isVisible = s.self.isVisible := by
  unfold showScenes
  cases hd : s.self.m_document with
  | none => simp [hd, setMinimumWidth, setMaximumWidth]
  | some d => simp [hd, selectCurrentScene_frame, setConnected, setUpdatesBlocked,
      State.setDocumentAt, setMinimumWidth, setMaximumWidth]

/-- Every sequence of `hideScenes`/`showScenes` calls and changes of the panel's
own visibility keeps the show button hidden exactly when the list view is not. -/
theorem Toggle.run_keeps_flags (ops : List Toggle) (s : State)
    (h : s.self.m_show_button.isHidden = !s.self.m_scenes.isHidden) :
    (Toggle.run ops s).self.m_show_button.isHidden =
      !(Toggle.run ops s).self.m_scenes.isHidden := by
  induction ops generalizing s with
  | nil => exact h
  | cons op rest ih =>
    have hrun : Toggle.run (op :: rest) s = Toggle.run rest (op.call s) := rfl
    rw [hrun]
    apply ih
    cases op with
    | hideScenes =>
      obtain ⟨h1, _, h3, _, _, _⟩ := hideScenes_widgets s
      show (FocusWriter.hideScenes s).self.m_show_button.isHidden =
        !(FocusWriter.hideScenes s).self.m_scenes.isHidden
      rw [h1, h3]
      rfl
    | showScenes =>
      obtain ⟨h1, _, h3, _, _, _⟩ := showScenes_widgets s
      show (FocusWriter.showScenes s).self.m_show_button.isHidden =
        !(FocusWriter.showScenes s).self.m_scenes.isHidden
      rw [h1, h3]
      rfl
    | setVisible visible => exact h

/-! ## Filtering -/

/-- C4: after `setFilter(filter)` the fixed-string filter of the filter model
is `filter`; dragging is enabled and the selection mode is extended selection
if and only if `filter` is empty, and for a non-empty `filter` dragging is
disabled and the selection mode is single selection. -/
theorem setFilter_couples_reordering (s : State) (filter : String) :
    (setFilter s filter).self.m_filter_model.filterFixedString = filter ∧
    (((setFilter s filter).self.m_scenes.dragEnabled = true ∧
      (setFilter s filter).self.m_scenes.selectionMode = SelectionMode.ExtendedSelection)
        ↔ filter = "") ∧
    (filter ≠ "" →
      (setFilter s filter).self.m_scenes.dragEnabled = false ∧
      (setFilter s filter).self.m_scenes.selectionMode = SelectionMode.SingleSelection) := by
  by_cases h : filter = ""
  · subst h
    have he : ("" : String).isEmpty = true := rfl
    simp [setFilter, he]
  · have he : ¬ filter.isEmpty = true := fun hc => h ((String.isEmpty_iff filter).1 hc)
    simp [setFilter, he, h]

/-- A use of `setFilter_couples_reordering`: filtering the expanded panel by
the text "storm". -/
theorem setFilter_couples_reordering_witness :
    (setFilter (exampleSelected []) "storm").self.m_scenes.dragEnabled = false ∧
    (setFilter (exampleSelected []) "storm").self.m_scenes.selectionMode
      = SelectionMode.SingleSelection :=
  (setFilter_couples_reordering (exampleSelected []) "storm").2.2 (by decide)

/-! ## Collapsing and expanding -/

/-- C5, counterexample: at the end of the constructor the panel is not yet
shown, so neither the show button nor the list view is visible, and a
`showScenes` call made then leaves `scenesVisible()` false. -/
theorem constructed_panel_shows_nothing :
    childVisible exampleCollapsed exampleCollapsed.self.m_show_button.isHidden = false ∧
    scenesVisible exampleCollapsed = false ∧
    scenesVisible (showScenes exampleCollapsed) = false := by
  decide

/-- C5, amended: `hideScenes` shows the show button and hides the hide button,
the list view, the filter box and the resizer, so `scenesVisible()` is false;
`showScenes` does the opposite. Each widget that is shown is visible exactly
when the panel itself is visible, so `scenesVisible()` after `showScenes` is
the panel's own visibility. In every state reached from construction by
`hideScenes`/`showScenes` calls, and by the application showing or hiding the
panel, the show button is hidden exactly when the list view is not, so while
the panel is visible the show button is visible exactly when the list view is
not. The constructor ends collapsed, with the panel not yet visible. -/
theorem panel_collapsible (s env : State) (settingsWidth : CInt) (ops : List Toggle) :
    ((hideScenes s).self.m_show_button.isHidden = false ∧
      (hideScenes s).self.m_hide_button.isHidden = true ∧
      (hideScenes s).self.m_scenes.isHidden = true ∧
      (hideScenes s).self.m_filter.isHidden = true ∧
      (hideScenes s).self.m_resizer.isHidden = true ∧
      childVisible (hideScenes s) (hideScenes s).self.m_show_button.isHidden
        = s.self.isVisible ∧
      childVisible (hideScenes s) (hideScenes s).self.m_hide_button.isHidden = false ∧
      childVisible (hideScenes s) (hideScenes s).self.m_filter.isHidden = false ∧
      childVisible (hideScenes s) (hideScenes s).self.m_resizer.isHidden = false ∧
      scenesVisible (hideScenes s) = false) ∧
    ((showScenes s).self.m_show_button.isHidden = true ∧
      (showScenes s).self.m_hide_button.isHidden = false ∧
      (showScenes s).self.m_scenes.isHidden = false ∧
      (showScenes s).self.m_filter.isHidden = false ∧
      (showScenes s).self.m_resizer.isHidden = false ∧
      childVisible (showScenes s) (showScenes s).self.m_show_button.isHidden = false ∧
      childVisible (showScenes s) (showScenes s).self.m_hide_button.isHidden
        = s.self.isVisible ∧
      childVisible (showScenes s) (showScenes s).self.m_filter.isHidden
        = s.self.isVisible ∧
      childVisible (showScenes s) (showScenes s).self.m_resizer.isHidden
        = s.self.isVisible ∧
      scenesVisible (showScenes s) = s.self.isVisible) ∧
    ((Toggle.run ops (SceneList.ctor env settingsWidth)).self.m_show_button.isHidden =
        !(Toggle.run ops (SceneList.ctor env settingsWidth)).self.m_scenes.isHidden ∧
      ((Toggle.run ops (SceneList.ctor env settingsWidth)).self.isVisible = true →
        childVisible (Toggle.run ops (SceneList.ctor env settingsWidth))
            (Toggle.run ops (SceneList.ctor env settingsWidth)).self.m_show_button.isHidden =
          !scenesVisible (Toggle.run ops (SceneList.ctor env settingsWidth)))) ∧
    ((SceneList.ctor env settingsWidth).self.m_show_button.isHidden = false ∧
      (SceneList.ctor env settingsWidth).self.m_hide_button.isHidden = true ∧
      (SceneList.ctor env settingsWidth).self.m_scenes.isHidden = true ∧
      (SceneList.ctor env settingsWidth).self.m_filter.isHidden = true ∧
      (SceneList.ctor env settingsWidth).self.m_resizer.isHidden = true ∧
      (SceneList.ctor env settingsWidth).self.isVisible = false ∧
      scenesVisible (SceneList.ctor env settingsWidth) = false) := by
  have hctor : ∃ s0, SceneList.ctor env settingsWidth = hideScenes s0 ∧
      s0.self.isVisible = false := by
    unfold SceneList.ctor
    exact ⟨_, rfl, rfl⟩
  obtain ⟨s0, hs0, hv0⟩ := hctor
  obtain ⟨a1, a2, a3, a4, a5, a6⟩ := hideScenes_widgets s
  obtain ⟨b1, b2, b3, b4, b5, b6⟩ := showScenes_widgets s
  obtain ⟨c1, c2, c3, c4, c5, c6⟩ := hideScenes_widgets s0
  have hrun := Toggle.run_keeps_flags ops (SceneList.ctor env settingsWidth)
    (by rw [hs0, c1, c3]; rfl)
  refine ⟨⟨a1, a2, a3, a4, a5, ?_, ?_, ?_, ?_, ?_⟩, ⟨b1, b2, b3, b4, b5, ?_, ?_, ?_, ?_, ?_⟩,
    ⟨hrun, ?_⟩, ?_⟩
  · simp [childVisible, a1, a6]
  · simp [childVisible, a2]
  · simp [childVisible, a4]
  · simp [childVisible, a5]
  · simp [scenesVisible, childVisible, a3]
  · simp [childVisible, b1]
  · simp [childVisible, b2, b6]
  · simp [childVisible, b4, b6]
  · simp [childVisible, b5, b6]
  · simp [scenesVisible, childVisible, b3, b6]
  · intro hv
    simp [scenesVisible, childVisible, hv, hrun]
  · rw [hs0]
    refine ⟨c1, c2, c3, c4, c5, by rw [c6, hv0], ?_⟩
    simp [scenesVisible, childVisible, c3]

/-- A use of `panel_collapsible`: once the application has shown the
constructed panel, the show button is visible and the list view is not. -/
theorem panel_collapsible_witness :
    childVisible (Toggle.run [Toggle.setVisible true]
        (SceneList.ctor exampleEnv (CInt.ofInt 300)))
      (Toggle.run [Toggle.setVisible true]
        (SceneList.ctor exampleEnv (CInt.ofInt 300))).self.m_show_button.isHidden =
    !scenesVisible (Toggle.run [Toggle.setVisible true]
      (SceneList.ctor exampleEnv (CInt.ofInt 300))) :=
  (panel_collapsible exampleEnv exampleEnv (CInt.ofInt 300) [Toggle.setVisible true]).2.2.1.2
    (by decide)

/-! ## Resizing with the mouse -/

/-- The maximum width after `setMaximumWidth(maxw)` is `maxw` bounded to the
range from 0 to `QWIDGETSIZE_MAX`; nothing else of the panel changes. -/
theorem setMaximumWidth_spec (s : State) (maxw : CInt) :
    (setMaximumWidth s maxw).self.maximumWidth.val = max 0 (min maxw.val 16777215) ∧
    (0 ≤ maxw.val ∧ maxw.val ≤ 16777215 → (setMaximumWidth s maxw).self.maximumWidth = maxw) ∧
    (setMaximumWidth s maxw).self.m_width = s.self.m_width ∧
    (setMaximumWidth s maxw).self.m_mouse_current = s.self.m_mouse_current ∧
    (setMaximumWidth s maxw).self.minimumWidth = s.self.minimumWidth := by
  have hq : QWIDGETSIZE_MAX.val = 16777215 := by decide
  have h0 : (CInt.ofInt 0).val = 0 := by decide
  have hval : (setMaximumWidth s maxw).self.maximumWidth.val
      = max 0 (min maxw.val 16777215) := by
    unfold setMaximumWidth
    simp only [hq]
    by_cases h1 : 16777215 < maxw.val
    · have hm : (qMin maxw QWIDGETSIZE_MAX).val = 16777215 := by
        rw [qMin_val, hq]
        omega
      simp only [if_pos h1, hm]
      rw [if_neg (by omega), hm]
      omega
    · simp only [if_neg h1]
      by_cases h2 : maxw.val < 0
      · simp only [if_pos h2]
        rw [qMax_val, h0]
        omega
      · simp only [if_neg h2]
        omega
  refine ⟨hval, ?_, by simp [setMaximumWidth], by simp [setMaximumWidth],
    by simp [setMaximumWidth]⟩
  intro h
  apply CInt.ext_val
  rw [hval]
  omega

/-- C6, counterexample: while resizing with stored width 300, minimum width
144 and the mouse last seen at x = 295, a move to x = 20000000 stores the
width 20000005 but sets the maximum width to 16777215, the largest width Qt
accepts; and a move to x = 2147483647 leaves the stored width at 144, not at
max(144, 300 + (2147483647 - 295)) = 2147483652, which no `int` can be. -/
theorem mouseMoveEvent_width_beyond_limits :
    exampleResizing.self.m_resizing = true ∧
    exampleResizing.self.m_width.val = 300 ∧
    exampleResizing.self.m_mouse_current.x.val = 295 ∧
    exampleResizing.self.minimumWidth.val = 144 ∧
    (mouseMoveEvent exampleResizing
      (QMouseEvent.ofButton MouseButton.NoButton 20000000 10)).self.m_width.val = 20000005 ∧
    (mouseMoveEvent exampleResizing
      (QMouseEvent.ofButton MouseButton.NoButton 20000000 10)).self.maximumWidth.val
        = 16777215 ∧
    (mouseMoveEvent exampleResizing
      (QMouseEvent.ofButton MouseButton.NoButton 2147483647 10)).self.m_width.val = 144 ∧
    max (144 : Int) (300 + (2147483647 - 295)) = 2147483652 := by
  decide

/-- C6, amended: for every mouse-move event received while `m_resizing` is
true, the recorded mouse position becomes the event position, the minimum
width is untouched, the new stored width is at least the minimum width, and
the maximum width is set to the new stored width bounded to the range from 0
to `QWIDGETSIZE_MAX`, hence to the new stored width itself when that lies in
this range; the new stored width is
max(minimumWidth, old m_width + (event x - recorded mouse x)) whenever that
difference and that sum are within the range of `int`. While `m_resizing` is
false the event changes nothing. -/
theorem mouseMoveEvent_resize (s : State) (event : QMouseEvent) :
    (s.self.m_resizing = true →
      (mouseMoveEvent s event).self.m_mouse_current = event.pos ∧
      (mouseMoveEvent s event).self.minimumWidth = s.self.minimumWidth ∧
      s.self.minimumWidth.val ≤ (mouseMoveEvent s event).self.m_width.val ∧
      (mouseMoveEvent s event).self.maximumWidth.val =
        max 0 (min (mouseMoveEvent s event).self.m_width.val 16777215) ∧
      (0 ≤ (mouseMoveEvent s event).self.m_width.val ∧
        (mouseMoveEvent s event).self.m_width.val ≤ 16777215 →
       (mouseMoveEvent s event).self.maximumWidth = (mouseMoveEvent s event).self.m_width) ∧
      (INT_MIN ≤ event.pos.x.val - s.self.m_mouse_current.x.val ∧
        event.pos.x.val - s.self.m_mouse_current.x.val ≤ INT_MAX →
       INT_MIN ≤ s.self.m_width.val + (event.pos.x.val - s.self.m_mouse_current.x.val) ∧
        s.self.m_width.val + (event.pos.x.val - s.self.m_mouse_current.x.val) ≤ INT_MAX →
       (mouseMoveEvent s event).self.m_width.val =
        max s.self.minimumWidth.val
          (s.self.m_width.val + (event.pos.x.val - s.self.m_mouse_current.x.val)))) ∧
    (s.self.m_resizing = false → mouseMoveEvent s event = s) := by
  constructor
  · intro hr
    have hstep : ∃ s1 : State, mouseMoveEvent s event = setMaximumWidth s1 s1.self.m_width ∧
        s1.self.m_width = qMax s.self.minimumWidth
          (CInt.add s.self.m_width (CInt.sub event.pos.x s.self.m_mouse_current.x)) ∧
        s1.self.m_mouse_current = event.pos ∧
        s1.self.minimumWidth = s.self.minimumWidth := by
      unfold mouseMoveEvent
      rw [if_pos hr]
      exact ⟨_, rfl, rfl, rfl, rfl⟩
    obtain ⟨s1, hmove, h1w, h1m, h1min⟩ := hstep
    obtain ⟨hval, heq, hw, hm, hmin⟩ := setMaximumWidth_spec s1 s1.self.m_width
    rw [hmove]
    refine ⟨by rw [hm, h1m], by rw [hmin, h1min], ?_, by rw [hval, hw], ?_, ?_⟩
    · rw [hw, h1w, qMax_val]
      exact le_max_left _ _
    · intro hrange
      rw [hw] at hrange ⊢
      exact heq hrange
    · intro hd hs
      unfold INT_MIN INT_MAX at hd hs
      rw [hw, h1w, qMax_val]
      have hsub := CInt.sub_val event.pos.x s.self.m_mouse_current.x hd.1 hd.2
      rw [CInt.add_val _ _ (by rw [hsub]; exact hs.1) (by rw [hsub]; exact hs.2), hsub]
  · intro hr
    simp [mouseMoveEvent, hr]

/-- A use of `mouseMoveEvent_resize`: dragging the resizer from x = 295 to
x = 335 widens the stored width from 300 to 340 and sets the maximum width to
it; the same event on the collapsed panel changes nothing. -/
theorem mouseMoveEvent_resize_witness :
    (mouseMoveEvent exampleResizing
      (QMouseEvent.ofButton MouseButton.NoButton 335 12)).self.m_width.val =
      max exampleResizing.self.minimumWidth.val
        (exampleResizing.self.m_width.val +
          ((QMouseEvent.ofButton MouseButton.NoButton 335 12).pos.x.val -
            exampleResizing.self.m_mouse_current.x.val)) ∧
    (mouseMoveEvent exampleResizing
      (QMouseEvent.ofButton MouseButton.NoButton 335 12)).self.maximumWidth =
      (mouseMoveEvent exampleResizing
        (QMouseEvent.ofButton MouseButton.NoButton 335 12)).self.m_width ∧
    mouseMoveEvent exampleCollapsed (QMouseEvent.ofButton MouseButton.NoButton 335 12)
      = exampleCollapsed :=
  ⟨((mouseMoveEvent_resize exampleResizing
      (QMouseEvent.ofButton MouseButton.NoButton 335 12)).1
      (by decide)).2.2.2.2.2 (by decide) (by decide),
   ((mouseMoveEvent_resize exampleResizing
      (QMouseEvent.ofButton MouseButton.NoButton 335 12)).1
      (by decide)).2.2.2.2.1 (by decide),
   (mouseMoveEvent_resize exampleCollapsed
      (QMouseEvent.ofButton MouseButton.NoButton 335 12)).2 (by decide)⟩

/-- C8: a mouse press sets `m_resizing` to true, and records the current
widget width in `m_width` and the press position, when the scene list is
visible, the button is the left one and the press is at or to the right of
the resizer's left edge in the panel's coordinates; every other press changes
nothing, so `m_resizing` becomes true on exactly those presses unless it was
true before. A release of the left button sets `m_resizing` to false and a
release of any other button changes nothing. -/
theorem resize_mode (s : State) (event : QMouseEvent) :
    ((scenesVisible s = true ∧ event.button = MouseButton.LeftButton ∧
        s.self.m_resizer.x.val ≤ event.pos.x.val) →
      (mousePressEvent s event).self.m_resizing = true ∧
      (mousePressEvent s event).self.m_width = s.self.width ∧
      (mousePressEvent s event).self.m_mouse_current = event.pos) ∧
    (¬ (scenesVisible s = true ∧ event.button = MouseButton.LeftButton ∧
        s.self.m_resizer.x.val ≤ event.pos.x.val) →
      mousePressEvent s event = s) ∧
    ((mousePressEvent s event).self.m_resizing = true ↔
      ((scenesVisible s = true ∧ event.button = MouseButton.LeftButton ∧
        s.self.m_resizer.x.val ≤ event.pos.x.val) ∨ s.self.m_resizing = true)) ∧
    (event.button = MouseButton.LeftButton →
      (mouseReleaseEvent s event).self.m_resizing = false) ∧
    (event.button ≠ MouseButton.LeftButton → mouseReleaseEvent s event = s) := by
  refine ⟨?_, ?_, ?_, ?_, ?_⟩
  · intro h
    unfold mousePressEvent
    rw [CInt.zero_add, if_pos h]
    simp
  · intro h
    unfold mousePressEvent
    rw [CInt.zero_add, if_neg h]
  · unfold mousePressEvent
    rw [CInt.zero_add]
    by_cases h : scenesVisible s = true ∧ event.button = MouseButton.LeftButton ∧
        s.self.m_resizer.x.val ≤ event.pos.x.val
    · rw [if_pos h]
      simp [h]
    · rw [if_neg h]
      simp [h]
  · intro h
    simp [mouseReleaseEvent, h]
  · intro h
    simp [mouseReleaseEvent, h]

/-- A use of `resize_mode`: a left press on the resizer of the expanded panel
starts resizing, the same press on the collapsed panel changes nothing, and a
left release ends resizing. -/
theorem resize_mode_witness :
    ((mousePressEvent (exampleSelected [])
        (QMouseEvent.ofButton MouseButton.LeftButton 295 10)).self.m_resizing = true ∧
      (mousePressEvent (exampleSelected [])
        (QMouseEvent.ofButton MouseButton.LeftButton 295 10)).self.m_width
          = (exampleSelected []).self.width ∧
      (mousePressEvent (exampleSelected [])
        (QMouseEvent.ofButton MouseButton.LeftButton 295 10)).self.m_mouse_current
          = (QMouseEvent.ofButton MouseButton.LeftButton 295 10).pos) ∧
    mousePressEvent exampleCollapsed (QMouseEvent.ofButton MouseButton.LeftButton 295 10)
      = exampleCollapsed ∧
    (mouseReleaseEvent exampleResizing
      (QMouseEvent.ofButton MouseButton.LeftButton 340 10)).self.m_resizing = false ∧
    mouseReleaseEvent exampleResizing (QMouseEvent.ofButton MouseButton.RightButton 340 10)
      = exampleResizing :=
  ⟨(resize_mode (exampleSelected []) (QMouseEvent.ofButton MouseButton.LeftButton 295 10)).1
      (by decide),
   (resize_mode exampleCollapsed (QMouseEvent.ofButton MouseButton.LeftButton 295 10)).2.1
      (by decide),
   (resize_mode exampleResizing (QMouseEvent.ofButton MouseButton.LeftButton 340 10)).2.2.2.1
      (by decide),
   (resize_mode exampleResizing (QMouseEvent.ofButton MouseButton.RightButton 340 10)).2.2.2.2
      (by decide)⟩

/-! ## Selection syncing -/

/-- C7: while no document is set or the list is not visible, `sceneSelected`
changes nothing for every index (so the text cursor stays) and
`selectCurrentScene` changes nothing (so the selection and the current index
stay). With a document set and the list visible, `sceneSelected` with a valid
index puts the text cursor at the start of the block whose number is the
index's user-role data, and with an invalid index changes nothing. -/
theorem selection_sync (s : State) (index : QModelIndex) (d : Nat) (p : CInt) :
    ((s.self.m_document = none ∨ scenesVisible s = false) →
      sceneSelected s index = s ∧ selectCurrentScene s = s) ∧
    (s.self.m_document = some d → scenesVisible s = true → index.isValid = true →
      0 ≤ index.userRole.val →
      (s.documents d).text.blockPositions[index.userRole.val.toNat]? = some p →
      0 ≤ p.val →
      ((sceneSelected s index).documents d).text.cursorPosition = p) ∧
    (index.isValid = false → sceneSelected s index = s) := by
  refine ⟨?_, ?_, ?_⟩
  · rintro (h | h)
    · simp [sceneSelected, selectCurrentScene, h]
    · cases hd : s.self.m_document <;> simp [sceneSelected, selectCurrentScene, h, hd]
  · intro hd hv hi hn hb hp
    have hpos : (s.documents d).text.findBlockByNumber_position index.userRole = p := by
      unfold QTextEdit.findBlockByNumber_position
      rw [if_neg (by omega), hb]
      rfl
    have hcur : QTextCursor_setPosition (s.documents d).text.cursorPosition p = p := by
      unfold QTextCursor_setPosition
      rw [if_neg (by omega)]
    have hsel : sceneSelected s index = setTextCursor s d p := by
      simp [sceneSelected, hd, hv, hi, hpos, hcur]
    rw [hsel]
    unfold setTextCursor
    simp only []
    split
    · rw [(selectCurrentScene_frame _).1]
      simp [State.setDocumentAt]
    · simp [State.setDocumentAt]
  · intro hi
    cases hd : s.self.m_document with
    | none => simp [sceneSelected, hd]
    | some d' =>
      by_cases hv : scenesVisible s = true
      · simp [sceneSelected, hd, hv, hi]
      · simp [sceneSelected, hd, hv]

/-- A use of `selection_sync`: in the expanded panel with document 0, choosing
the scene of block 2 puts the cursor at 95; on the collapsed panel nothing
changes. -/
theorem selection_sync_witness :
    ((sceneSelected (exampleSelected []) (QModelIndex.ofRow 2 2)).documents 0).text.cursorPosition
      = CInt.ofInt 95 ∧
    (sceneSelected exampleCollapsed (QModelIndex.ofRow 2 2) = exampleCollapsed ∧
      selectCurrentScene exampleCollapsed = exampleCollapsed) ∧
    sceneSelected (exampleSelected []) QModelIndex.invalid = exampleSelected [] :=
  ⟨(selection_sync (exampleSelected []) (QModelIndex.ofRow 2 2) 0 (CInt.ofInt 95)).2.1
      (by decide) (by decide) (by decide) (by decide) (by decide) (by decide),
   (selection_sync exampleCollapsed (QModelIndex.ofRow 2 2) 0 (CInt.ofInt 95)).1
      (Or.inl (by decide)),
   (selection_sync (exampleSelected []) QModelIndex.invalid 0 (CInt.ofInt 95)).2.2
      (by decide)⟩

/-! ## Blocking the updates of the scene model -/

/-- With a non-null argument `setDocument` returns; the new document is the
current one and the visibility of the list is as before. When the list is
visible the updates of the new document's scene model are unblocked, and when
it is not their flag is as before. -/
theorem setDocument_some (s : State) (d : Nat) :
    ∃ s', setDocument s (some d) = some s' ∧ s'.self.m_document = some d ∧
      scenesVisible s' = scenesVisible s ∧
      (scenesVisible s = true → (s'.documents d).sceneModel.updatesBlocked = false) ∧
      (scenesVisible s = false → (s'.documents d).sceneModel.updatesBlocked
        = (s.documents d).sceneModel.updatesBlocked) := by
  unfold setDocument
  simp only []
  generalize hs1 : m_filter_clear _ = s1
  have hhid : s1.self.m_scenes.isHidden = s.self.m_scenes.isHidden := by
    rw [← hs1, (m_filter_clear_frame _).2.2.2.2.2.1]
    cases s.self.m_document <;> rfl
  have hpan : s1.self.isVisible = s.self.isVisible := by
    rw [← hs1, (m_filter_clear_frame _).2.2.1]
    cases s.self.m_document <;> rfl
  have hdoc : (s1.documents d).sceneModel = (s.documents d).sceneModel := by
    rw [← hs1, (m_filter_clear_frame _).1]
    cases s.self.m_document with
    | none => rfl
    | some d0 =>
      simp only [setConnected, State.setDocumentAt]
      by_cases hdd : d = d0
      · subst hdd
        simp
      · simp [hdd]
  by_cases hv : scenesVisible s = true
  · obtain ⟨hp, hh⟩ : s.self.isVisible = true ∧ s.self.m_scenes.isHidden = false := by
      simpa [scenesVisible, childVisible] using hv
    simp [scenesVisible, childVisible, hhid, hpan, hp, hh, selectCurrentScene_frame,
      setConnected, setUpdatesBlocked, State.setDocumentAt]
  · have hv1 : (s.self.isVisible && !s.self.m_scenes.isHidden) = false := by
      simpa [scenesVisible, childVisible] using hv
    simp only [scenesVisible, childVisible, hhid, hpan, hv1]
    simp [hdoc]
    intro hp
    simpa [hp] using hv1

/-- After `hideScenes` the updates of the current document's scene model are
blocked. -/
theorem hideScenes_updatesBlocked (s : State) (d : Nat) (hd : s.self.m_document = some d) :
    ((hideScenes s).documents d).sceneModel.updatesBlocked = true := by
  unfold hideScenes
  simp [hd, m_filter_clear_frame, setConnected, setUpdatesBlocked, State.setDocumentAt,
    setMinimumWidth, setMaximumWidth]

/-- After `showScenes` the current document is the same and the updates of its
scene model are unblocked. -/
theorem showScenes_updatesBlocked (s : State) :
    (showScenes s).self.m_document = s.self.m_document ∧
    ∀ d, s.self.m_document = some d →
      ((showScenes s).documents d).sceneModel.updatesBlocked = false := by
  unfold showScenes
  cases hd : s.self.m_document with
  | none => simp [hd, setMinimumWidth, setMaximumWidth]
  | some d' =>
    simp [hd, selectCurrentScene_frame, setConnected, setUpdatesBlocked, State.setDocumentAt,
      setMinimumWidth, setMaximumWidth]

/-- Every sequence of calls returns, and keeps the updates of the current
document's scene model unblocked while the list is visible. -/
theorem Call.run_keeps_unblocked (ops : List Call) (s : State)
    (h : scenesVisible s = true → ∀ d, s.self.m_document = some d →
      (s.documents d).sceneModel.updatesBlocked = false) :
    ∃ s', Call.run ops s = some s' ∧
      (scenesVisible s' = true → ∀ d, s'.self.m_document = some d →
        (s'.documents d).sceneModel.updatesBlocked = false) := by
  induction ops generalizing s with
  | nil => exact ⟨s, rfl, h⟩
  | cons op rest ih =>
    cases op with
    | setDocument document =>
      obtain ⟨s1, h1, hd1, hv1, hb1, _⟩ := setDocument_some s document
      have hrun : Call.run (Call.setDocument document :: rest) s = Call.run rest s1 := by
        simp [Call.run, Call.call, h1]
      rw [hrun]
      apply ih
      intro hv d hd
      rw [hd1] at hd
      cases hd
      exact hb1 (by rw [← hv1]; exact hv)
    | hideScenes =>
      have hrun : Call.run (Call.hideScenes :: rest) s
          = Call.run rest (FocusWriter.hideScenes s) := by
        simp [Call.run, Call.call]
      rw [hrun]
      apply ih
      intro hv
      have := (hideScenes_widgets s).2.2.1
      simp [scenesVisible, childVisible, this] at hv
    | showScenes =>
      have hrun : Call.run (Call.showScenes :: rest) s
          = Call.run rest (FocusWriter.showScenes s) := by
        simp [Call.run, Call.call]
      rw [hrun]
      apply ih
      intro _ d hd
      rw [(showScenes_updatesBlocked s).1] at hd
      exact (showScenes_updatesBlocked s).2 d hd

/-- C10, counterexample: on the shown panel, expand, attach document 1, attach
document 0, collapse and attach document 1 again: the list is then not
visible and document 1 is current, yet the updates of its scene model are not
blocked. The same holds after attaching document 1 to the freshly constructed
panel and calling `showScenes` before the panel is shown. -/
theorem updates_unblocked_while_hidden :
    (Call.run exampleCalls exampleShown).map (fun s =>
      (scenesVisible s, s.self.m_document, (s.documents 1).sceneModel.updatesBlocked))
      = some (false, some 1, false) ∧
    (Call.run [Call.setDocument 1, Call.showScenes] exampleCollapsed).map (fun s =>
      (scenesVisible s, s.self.m_document, (s.documents 1).sceneModel.updatesBlocked))
      = some (false, some 1, false) := by
  decide

/-- C10, amended: with a document attached, `hideScenes` blocks and
`showScenes` unblocks the updates of its scene model; `setDocument(d)` called
while the list is visible unblocks those of `d`, and called while the list is
not visible leaves the flag of `d` as it was. So in every state reached from
the constructed panel, shown by the application or not, by `setDocument`,
`hideScenes` and `showScenes` calls, if the scene list is visible then the
updates of the current document's scene model are not blocked. -/
theorem updates_blocked_tracking (s env : State) (settingsWidth : CInt) (d : Nat)
    (shown : Bool) (ops : List Call) :
    (s.self.m_document = some d →
      ((hideScenes s).documents d).sceneModel.updatesBlocked = true) ∧
    (s.self.m_document = some d →
      ((showScenes s).documents d).sceneModel.updatesBlocked = false) ∧
    (scenesVisible s = true →
      ∃ s', setDocument s (some d) = some s' ∧ s'.self.m_document = some d ∧
        (s'.documents d).sceneModel.updatesBlocked = false) ∧
    (scenesVisible s = false →
      ∃ s', setDocument s (some d) = some s' ∧ s'.self.m_document = some d ∧
        (s'.documents d).sceneModel.updatesBlocked
          = (s.documents d).sceneModel.updatesBlocked) ∧
    (∃ s', Call.run ops (setPanelVisible (SceneList.ctor env settingsWidth) shown) = some s' ∧
      (scenesVisible s' = true → ∀ d', s'.self.m_document = some d' →
        (s'.documents d').sceneModel.updatesBlocked = false)) := by
  refine ⟨hideScenes_updatesBlocked s d, (showScenes_updatesBlocked s).2 d, ?_, ?_, ?_⟩
  · intro hv
    obtain ⟨s1, h1, hd1, _, hb1, _⟩ := setDocument_some s d
    exact ⟨s1, h1, hd1, hb1 hv⟩
  · intro hv
    obtain ⟨s1, h1, hd1, _, _, hk1⟩ := setDocument_some s d
    exact ⟨s1, h1, hd1, hk1 hv⟩
  · apply Call.run_keeps_unblocked
    intro hv
    have hctor : ∃ s0, SceneList.ctor env settingsWidth = hideScenes s0 := by
      unfold SceneList.ctor
      exact ⟨_, rfl⟩
    obtain ⟨s0, hs0⟩ := hctor
    have := (hideScenes_widgets s0).2.2.1
    rw [hs0] at hv
    simp [scenesVisible, childVisible, setPanelVisible, this] at hv

/-- A use of `updates_blocked_tracking`: on the expanded panel with document 0
attached, collapsing blocks the updates of document 0, expanding unblocks
them, and attaching document 1 unblocks the updates of document 1; attaching
document 1 to the collapsed panel leaves them blocked as they were. -/
theorem updates_blocked_tracking_witness :
    ((hideScenes (exampleSelected [])).documents 0).sceneModel.updatesBlocked = true ∧
    ((showScenes (exampleSelected [])).documents 0).sceneModel.updatesBlocked = false ∧
    (∃ s', setDocument (exampleSelected []) (some 1) = some s' ∧
      s'.self.m_document = some 1 ∧ (s'.documents 1).sceneModel.updatesBlocked = false) ∧
    (∃ s', setDocument exampleShown (some 1) = some s' ∧
      s'.self.m_document = some 1 ∧ (s'.documents 1).sceneModel.updatesBlocked
        = (exampleShown.documents 1).sceneModel.updatesBlocked) :=
  ⟨(updates_blocked_tracking (exampleSelected []) exampleEnv (CInt.ofInt 300) 0 true []).1
      (by decide),
   (updates_blocked_tracking (exampleSelected []) exampleEnv (CInt.ofInt 300) 0 true []).2.1
      (by decide),
   (updates_blocked_tracking (exampleSelected []) exampleEnv (CInt.ofInt 300) 1 true []).2.2.1
      (by decide),
   (updates_blocked_tracking exampleShown exampleEnv (CInt.ofInt 300) 1 true []).2.2.2.1
      (by decide)⟩

end FocusWriter
